import Mathlib

/-!
Verification of the mongootils connection-lifecycle manager (src/index.js).

The JavaScript source is shallowly embedded as pure Lean functions over an
explicit world state.  The handle (a Mongootils instance) stores a uri, an
options value and an optional reference (index) to a connection object.
Connection objects live in a store; the process-wide mongoose connection
list is a list of store indices.  Promise settlement is modelled by
explicit result values, and the asynchronous event callbacks of the source
are modelled as separate step functions on the state.

External collaborators are modelled as follows.
* The Node.js event emitter backing a mongoose connection: the source reads
  the emitter internals directly (connection._events, Array.isArray on an
  entry, fn.length), so those internals are modelled faithfully: an event
  name maps to either a single bare listener function or an array of
  listener functions; a function value carries its arity (its JS .length);
  a one-shot (once) subscription stores a wrapper function of arity 0 whose
  .listener property is the subscribed function; removeListener removes the
  last entry that is the given function or whose .listener property is the
  given function; Function.prototype.bind returns a fresh function object,
  never identical to the function it binds.
* mongoose (the Connection Provider): its documented readyState enum is
  disconnected = 0, connected = 1, connecting = 2, disconnecting = 3,
  uninitialized = 99; mongoose.connect activates the shared default slot
  and mongoose.createConnection appends a fresh independent connection.
* mongodb-uri (the URI Codec): format renders the structured uri object
  into a canonical string and formatMongoose is the driver-specific
  rendering pass applied to that string.
-/

/-- The named functions of the source that can be used as event handlers:
the three closures of connect (onConnectionError, onConnectionOpened,
cleanup), the three closures of disconnect (onDisconnectionError,
onConnectionClosed, cleanup), and arbitrary external handler functions
(with an explicit identity and arity). -/
inductive RawF where
  | connErr
  | connOpened
  | connCleanup
  | discErr
  | discClosed
  | discCleanup
  | ext (id : Nat) (arity : Nat)
  deriving DecidableEq, Repr

/-- The JS .length (arity) of each handler function: onConnectionError and
onDisconnectionError take one parameter (err); the other closures of the
source take none. -/
def RawF.jsLength : RawF → Nat
  | .connErr => 1
  | .connOpened => 0
  | .connCleanup => 0
  | .discErr => 1
  | .discClosed => 0
  | .discCleanup => 0
  | .ext _ a => a

/-- A function value: either a named source function itself or the fresh
function object produced by fn.bind(this) (distinct from the raw one). -/
inductive Fn where
  | raw (f : RawF)
  | bound (f : RawF)
  deriving DecidableEq, Repr

/-- JS .length of a function value; a bound function keeps the arity of
its target (no arguments are pre-bound in the source). -/
def Fn.jsLength : Fn → Nat
  | .raw f => f.jsLength
  | .bound f => f.jsLength

/-- A listener entry as stored by the Node emitter: a plain subscription
(on) stores the function itself; a one-shot subscription (once) stores a
wrapper function of arity 0 whose .listener property is the function. -/
inductive Entry where
  | plain (g : Fn)
  | wrapper (g : Fn)
  deriving DecidableEq, Repr

/-- JS .length of the stored listener: the function arity for a plain
entry, 0 for a once wrapper (the wrapper function takes no declared
parameters). -/
def Entry.jsLength : Entry → Nat
  | .plain g => g.jsLength
  | .wrapper _ => 0

/-- The function a removeListener call can match the entry against:
the entry itself for a plain one, the wrapper's .listener for a once
wrapper. -/
def Entry.target : Entry → Fn
  | .plain g => g
  | .wrapper g => g

/-- The value stored under an event name in connection._events: a single
bare listener, or an array of listeners. -/
inductive EventEntry where
  | single (e : Entry)
  | multi (es : List Entry)
  deriving DecidableEq, Repr

/-- JS .length of the stored value: for a single bare function this is the
function arity, for an array its element count. -/
def EventEntry.jsLength : EventEntry → Nat
  | .single e => e.jsLength
  | .multi es => es.length

/-- The listeners represented by an event entry, in order. -/
def EventEntry.toList : EventEntry → List Entry
  | .single e => [e]
  | .multi es => es

/-- Lookup of connection._events[ev]. -/
def lookupEv (evs : List (String × EventEntry)) (ev : String) : Option EventEntry :=
  (evs.find? (fun p => p.1 == ev)).map (fun p => p.2)

/-- Update (or append) the entry stored under an event name. -/
def setEv (evs : List (String × EventEntry)) (ev : String) (e : EventEntry) :
    List (String × EventEntry) :=
  match evs with
  | [] => [(ev, e)]
  | p :: rest => if p.1 == ev then (ev, e) :: rest else p :: setEv rest ev e

/-- Delete the entry stored under an event name. -/
def delEv (evs : List (String × EventEntry)) (ev : String) :
    List (String × EventEntry) :=
  match evs with
  | [] => []
  | p :: rest => if p.1 == ev then rest else p :: delEv rest ev

/-- Node emitter add (shared by on and once): a first listener is stored
bare, a second turns the slot into an array, later ones are appended. -/
def addEntry (evs : List (String × EventEntry)) (ev : String) (e : Entry) :
    List (String × EventEntry) :=
  match lookupEv evs ev with
  | none => setEv evs ev (.single e)
  | some (.single e0) => setEv evs ev (.multi [e0, e])
  | some (.multi es) => setEv evs ev (.multi (es ++ [e]))

/-- Remove the last entry of the list matching the function (the entry is
the function itself or its .listener property is the function). -/
def removeLastMatch (es : List Entry) (cb : Fn) : List Entry :=
  match es with
  | [] => []
  | e :: rest =>
      let rest2 := removeLastMatch rest cb
      if rest2 == rest then (if e.target == cb then rest else e :: rest)
      else e :: rest2

/-- Node emitter removeListener(ev, cb): no effect if no listener matches;
a matching single entry deletes the slot; in an array the last match is
spliced out and a one-element remainder collapses back to a bare
listener. -/
def emitterRemove (evs : List (String × EventEntry)) (ev : String) (cb : Fn) :
    List (String × EventEntry) :=
  match lookupEv evs ev with
  | none => evs
  | some (.single e) => if e.target == cb then delEv evs ev else evs
  | some (.multi es) =>
      match removeLastMatch es cb with
      | [] => delEv evs ev
      | [e1] => setEv evs ev (.single e1)
      | es2 => setEv evs ev (.multi es2)

/-- A mongoose connection object: its readyState, the fields read by
getConnectionURI, its options and its event-listener registry. -/
structure Conn where
  readyState : Nat
  user : Option String := none
  pass : Option String := none
  name : Option String := none
  host : String := ""
  port : Nat := 27017
  hosts : Option (List (String × Nat)) := none
  options : Nat := 0
  events : List (String × EventEntry) := []
  deriving DecidableEq, Repr

/-- The fields of a Mongootils instance: uri, options and the optional
connection reference (an index into the world's connection store). -/
structure Handle where
  uri : String
  options : Nat := 0
  connection : Option Nat := none
  deriving DecidableEq, Repr

/-- The whole state: every connection object in the process (store), the
mongoose.connections list (indices into the store), the handle under
study, and a count of close requests issued to connections. -/
structure World where
  store : List Conn := []
  connections : List Nat := []
  handle : Handle
  closeRequests : Nat := 0
  deriving DecidableEq, Repr

/-- Dereference a connection index (worlds built by the operations keep
all indices in range). -/
def getConn (w : World) (i : Nat) : Conn :=
  (w.store.get? i).getD { readyState := 0 }

/-- Update the connection object at an index in place. -/
def updStore (w : World) (i : Nat) (f : Conn → Conn) : World :=
  { w with store := w.store.set i (f (getConn w i)) }

/-- mongoose.Connection.STATES, the documented readyState enum of the
Connection Provider. -/
def STATES : String → Option Nat
  | "disconnected" => some 0
  | "connected" => some 1
  | "connecting" => some 2
  | "disconnecting" => some 3
  | "uninitialized" => some 99
  | _ => none

/-- A JavaScript value as returned by Mongootils.prototype.is: either
undefined or a boolean (the source returns the short-circuit value of a
&& / || chain). -/
inductive JsVal where
  | undef
  | jb (b : Bool)
  deriving DecidableEq, Repr

/-- JS truthiness of such a value. -/
def JsVal.truthy : JsVal → Bool
  | .undef => false
  | .jb b => b

/-- The comparison readyState === STATES[state] (false when the state name
is not in the enum, as in JS where === against undefined is false). -/
def eqStates (rs : Nat) (s : String) : Bool :=
  match STATES s with
  | some k => rs == k
  | none => false

/-- Mongootils.prototype.is.  For disconnected / uninitialized the source
returns !this.connection || this.connection.readyState === STATES[state];
otherwise it returns this.connection && this.connection.readyState ===
STATES[state], whose value is undefined when no connection is held. -/
def Mongootils.is (w : World) (s : String) : JsVal :=
  if s == "disconnected" || s == "uninitialized" then
    match w.handle.connection with
    | none => .jb true
    | some c => .jb (eqStates (getConn w c).readyState s)
  else
    match w.handle.connection with
    | none => .undef
    | some c => .jb (eqStates (getConn w c).readyState s)

/-- Mongootils.prototype.getConnection. -/
def Mongootils.getConnection (w : World) : Option Nat :=
  w.handle.connection

/-- The structured uri object built by getConnectionURI. -/
structure UriObject where
  username : Option String
  password : Option String
  database : Option String
  hosts : List (String × Nat)
  deriving DecidableEq, Repr

/-- Modelled from the spec: the URI Codec's format renders the structured
object into the canonical connection string (credentials, comma-joined
host:port pairs, database). -/
def mongodburi.format (u : UriObject) : String :=
  let cred :=
    match u.username, u.password with
    | some us, some pw => us ++ ":" ++ pw ++ "@"
    | some us, none => us ++ "@"
    | none, _ => ""
  let hostsStr := String.intercalate "," (u.hosts.map (fun hp => hp.1 ++ ":" ++ toString hp.2))
  let db := match u.database with | some d => "/" ++ d | none => ""
  "mongodb://" ++ cred ++ hostsStr ++ db

/-- Modelled from the spec: the driver-specific rendering pass applied to
the canonical string; the claims only track that the canonical string is
passed through it, so it is taken as the identity rendering. -/
def mongodburi.formatMongoose (s : String) : String := s

/-- Mongootils.prototype.getConnectionURI. -/
def Mongootils.getConnectionURI (w : World) : Option String :=
  match w.handle.connection with
  | none => none
  | some c =>
      let conn := getConn w c
      let uriObject : UriObject :=
        { username := conn.user
          password := conn.pass
          database := conn.name
          hosts :=
            match conn.hosts with
            | none => [(conn.host, conn.port)]
            | some hs => hs }
      some (mongodburi.formatMongoose (mongodburi.format uriObject))

/-- Mongootils.prototype.addConnectionListener: reads
this.connection._events and attaches cb.bind(this) (via on for the error
event, once otherwise) only when the slot for the event is absent or its
JS .length is 0. -/
def Mongootils.addConnectionListener (w : World) (ev : String) (cb : RawF) : World :=
  match w.handle.connection with
  | none => w
  | some c =>
      let conn := getConn w c
      let attach : Bool := (lookupEv conn.events ev).all (fun e => e.jsLength == 0)
      if attach then
        if ev == "error" then
          updStore w c (fun cn => { cn with events := addEntry cn.events ev (.plain (.bound cb)) })
        else
          updStore w c (fun cn => { cn with events := addEntry cn.events ev (.wrapper (.bound cb)) })
      else w

/-- Mongootils.prototype.removeListeners: returns without effect when no
connection is held or no slot exists for the event; for an array slot the
source iterates with an unbound this under strict mode, a TypeError
(modelled as none); for a single bare listener it issues one
connection.removeListener(ev, cb) call. -/
def Mongootils.removeListeners (w : World) (ev : String) (cb : Fn) : Option World :=
  match w.handle.connection with
  | none => some w
  | some c =>
      let conn := getConn w c
      match lookupEv conn.events ev with
      | none => some w
      | some (.multi es) => if es.isEmpty then some w else none
      | some (.single _) =>
          some (updStore w c (fun cn => { cn with events := emitterRemove cn.events ev cb }))

/-- The number of listeners currently attached for an event on a
connection. -/
def countListeners (w : World) (c : Nat) (ev : String) : Nat :=
  ((lookupEv (getConn w c).events ev).elim [] EventEntry.toList).length

/-- The settlement state of the bluebird promise returned by connect:
resolve is called with this.connection (an optional reference). -/
inductive CResult where
  | pending
  | resolved (c : Option Nat)
  | rejected (e : Nat)
  deriving DecidableEq, Repr

/-- The settlement state of the promise returned by disconnect. -/
inductive DResult where
  | pending
  | resolved (uri : String)
  | rejected (e : Nat)
  deriving DecidableEq, Repr

/-- A promise settles only once; later resolve calls are ignored. -/
def CResult.resolveOnce : CResult → Option Nat → CResult
  | .pending, v => .resolved v
  | r, _ => r

/-- A promise settles only once; later reject calls are ignored. -/
def CResult.rejectOnce : CResult → Nat → CResult
  | .pending, e => .rejected e
  | r, _ => r

/-- A promise settles only once; later resolve calls are ignored. -/
def DResult.resolveOnce : DResult → String → DResult
  | .pending, u => .resolved u
  | r, _ => r

/-- A promise settles only once; later reject calls are ignored. -/
def DResult.rejectOnce : DResult → Nat → DResult
  | .pending, e => .rejected e
  | r, _ => r

/-- The promises of the connect attempt and of the disconnect attempt
under study. -/
structure PS where
  c : CResult := .pending
  d : DResult := .pending
  deriving DecidableEq, Repr

/-- The body of connect's cleanup closure: three removeListeners calls
passing the raw (unbound) named functions; a thrown TypeError (none)
propagates. -/
def connectCleanupRun (w : World) : Option World :=
  match Mongootils.removeListeners w "error" (.raw .connErr) with
  | none => none
  | some w1 =>
      match Mongootils.removeListeners w1 "open" (.raw .connOpened) with
      | none => none
      | some w2 => Mongootils.removeListeners w2 "close" (.raw .connCleanup)

/-- The body of disconnect's cleanup closure. -/
def disconnectCleanupRun (w : World) : Option World :=
  match Mongootils.removeListeners w "error" (.raw .discErr) with
  | none => none
  | some w1 =>
      match Mongootils.removeListeners w1 "disconnected" (.raw .discClosed) with
      | none => none
      | some w2 => Mongootils.removeListeners w2 "close" (.raw .discCleanup)

/-- Running one of the source's handler closures (all of them bound to the
handle).  onConnectionError rejects the connect promise with the error;
onConnectionOpened resolves it with this.connection at fire time; the two
cleanup closures run removeListeners; onDisconnectionError rejects the
disconnect promise; onConnectionClosed only logs.  External handlers have
no effect on the modelled state.  A none result is a thrown TypeError. -/
def runRaw (w : World) (ps : PS) (g : RawF) (err : Nat) : Option (World × PS) :=
  match g with
  | .connErr => some (w, { ps with c := ps.c.rejectOnce err })
  | .connOpened => some (w, { ps with c := ps.c.resolveOnce w.handle.connection })
  | .connCleanup => (connectCleanupRun w).map (fun w2 => (w2, ps))
  | .discErr => some (w, { ps with d := ps.d.rejectOnce err })
  | .discClosed => some (w, ps)
  | .discCleanup => (disconnectCleanupRun w).map (fun w2 => (w2, ps))
  | .ext _ _ => some (w, ps)

/-- Invoking a function value runs its underlying named function. -/
def runFn (w : World) (ps : PS) (f : Fn) (err : Nat) : Option (World × PS) :=
  match f with
  | .raw g => runRaw w ps g err
  | .bound g => runRaw w ps g err

/-- Node emitter emit: once wrappers are removed from the registry as the
event fires. -/
def dropWrappers (evs : List (String × EventEntry)) (ev : String) :
    List (String × EventEntry) :=
  match lookupEv evs ev with
  | none => evs
  | some (.single (.wrapper _)) => delEv evs ev
  | some (.single (.plain _)) => evs
  | some (.multi es) =>
      match es.filter (fun e => match e with | .wrapper _ => false | .plain _ => true) with
      | [] => delEv evs ev
      | [e1] => setEv evs ev (.single e1)
      | es2 => setEv evs ev (.multi es2)

/-- Running a snapshot of listeners in order; a thrown TypeError stops
the dispatch. -/
def runEntries (w : World) (ps : PS) (es : List Entry) (err : Nat) : Option (World × PS) :=
  match es with
  | [] => some (w, ps)
  | e :: rest =>
      match runFn w ps e.target err with
      | none => none
      | some wps => runEntries wps.1 wps.2 rest err

/-- Firing an event on a connection: a snapshot of the listeners is taken,
the one-shot wrappers are dropped from the registry, and each listener
from the snapshot runs in order. -/
def fireEvent (w : World) (ps : PS) (c : Nat) (ev : String) (err : Nat) :
    Option (World × PS) :=
  runEntries (updStore w c (fun cn => { cn with events := dropWrappers cn.events ev })) ps
    ((lookupEv (getConn w c).events ev).elim [] EventEntry.toList) err

/-- Modelled from the spec: the Connection Provider marks the connection
connected and emits the open event. -/
def driverOpen (w : World) (ps : PS) (c : Nat) : Option (World × PS) :=
  fireEvent (updStore w c (fun cn => { cn with readyState := 1 })) ps c "open" 0

/-- Modelled from the spec: the Connection Provider emits an error event
carrying the error object. -/
def driverError (w : World) (ps : PS) (c : Nat) (e : Nat) : Option (World × PS) :=
  fireEvent w ps c "error" e

/-- Modelled from the spec: the Connection Provider marks the connection
disconnected and emits the close event. -/
def driverClose (w : World) (ps : PS) (c : Nat) : Option (World × PS) :=
  fireEvent (updStore w c (fun cn => { cn with readyState := 0 })) ps c "close" 0

/-- A fresh connection object as created by the Connection Provider for a
uri and options (it starts connecting; its exact field defaults are
irrelevant to the claims). -/
def newConn (uri : String) (options : Nat) : Conn :=
  { readyState := 2, host := uri, options := options }

/-- Modelled from the spec: mongoose.connect(uri, options) activates the
shared default connection slot (the first entry of the process-wide
list). -/
def mongooseConnect (w : World) : World :=
  match w.connections with
  | [] => w
  | c :: _ => updStore w c (fun cn => { cn with readyState := 2 })

/-- Modelled from the spec: mongoose.createConnection(uri, options)
creates a new independent connection object and appends it to the
process-wide list. -/
def mongooseCreateConnection (w : World) : World × Nat :=
  let id := w.store.length
  ({ w with
      store := w.store ++ [newConn w.handle.uri w.handle.options]
      connections := w.connections ++ [id] },
   id)

/-- Mongootils.prototype.connect (the synchronous part of the promise
executor): resolve immediately when already connected; do nothing further
when already connecting; otherwise obtain a connection (the shared default
slot exactly when the process-wide list has exactly one connection whose
readyState is 0, a fresh one otherwise), store it on the handle and
register the error / open / close listeners. -/
def Mongootils.connect (w : World) : World × CResult :=
  if (Mongootils.is w "connected").truthy then
    (w, .resolved w.handle.connection)
  else if (Mongootils.is w "connecting").truthy then
    (w, .pending)
  else
    let (w1, cid) :=
      if w.connections.length == 1 && (getConn w (w.connections.headD 0)).readyState == 0 then
        (mongooseConnect w, w.connections.headD 0)
      else
        mongooseCreateConnection w
    let w2 := { w1 with handle := { w1.handle with connection := some cid } }
    let w3 := Mongootils.addConnectionListener w2 "error" .connErr
    let w4 := Mongootils.addConnectionListener w3 "open" .connOpened
    let w5 := Mongootils.addConnectionListener w4 "close" .connCleanup
    (w5, .pending)

/-- Mongootils.prototype.disconnect (the synchronous part of the promise
executor): when disconnected or uninitialized clear the reference and
resolve with the stored uri; when already disconnecting do nothing
further; otherwise register the error / disconnected / close listeners
and issue the close request. -/
def Mongootils.disconnect (w : World) : World × DResult :=
  if (Mongootils.is w "disconnected").truthy || (Mongootils.is w "uninitialized").truthy then
    ({ w with handle := { w.handle with connection := none } }, .resolved w.handle.uri)
  else if (Mongootils.is w "disconnecting").truthy then
    (w, .pending)
  else
    let w1 := Mongootils.addConnectionListener w "error" .discErr
    let w2 := Mongootils.addConnectionListener w1 "disconnected" .discClosed
    let w3 := Mongootils.addConnectionListener w2 "close" .discCleanup
    ({ w3 with closeRequests := w3.closeRequests + 1 }, .pending)

/-- The completion callback passed to connection.close by disconnect: run
cleanup, clear the connection reference, resolve with this.uri. -/
def closeCallback (w : World) (ps : PS) : Option (World × PS) :=
  (disconnectCleanupRun w).map (fun w1 =>
    ({ w1 with handle := { w1.handle with connection := none } },
     { ps with d := ps.d.resolveOnce w1.handle.uri }))

/-- Constructor mode B: a uri string and an options value; the connection
starts absent. -/
def Mongootils.new (uri : String) (options : Nat) : Handle :=
  { uri := uri, options := options, connection := none }

/-- Constructor mode A: wrap an existing connection object; the uri is
derived through getConnectionURI and the options are taken from the
connection. -/
def Mongootils.ofConnection (store : List Conn) (connections : List Nat) (c : Nat) : World :=
  let w0 : World :=
    { store := store, connections := connections
      handle := { uri := "", options := 0, connection := some c } }
  { w0 with
      handle :=
        { uri := (Mongootils.getConnectionURI w0).getD ""
          options := (getConn w0 c).options
          connection := some c } }

/-- The three listener entries registered on a fresh connection by a
connect attempt: a persistent bound error listener and one-shot bound
open and close listeners. -/
def connListeners : List (String × EventEntry) :=
  [("error", .single (.plain (.bound .connErr))),
   ("open", .single (.wrapper (.bound .connOpened))),
   ("close", .single (.wrapper (.bound .connCleanup)))]

/-- The world produced by a connect attempt that creates a fresh
connection: the new connection (with the three listeners) is appended to
the store and to the process-wide list, and the handle points at it. -/
def wFresh (w : World) : World :=
  { store := w.store ++ [{ newConn w.handle.uri w.handle.options with events := connListeners }]
    connections := w.connections ++ [w.store.length]
    handle := { w.handle with connection := some w.store.length }
    closeRequests := w.closeRequests }

/-- Both promises pending. -/
def ps0 : PS := {}

/-- The observable steps of the system: the two methods, the close
completion callback, and the driver firing each lifecycle event on a
connection (a step whose callback throws leaves the state unchanged). -/
inductive Op where
  | connectOp
  | disconnectOp
  | closeCb
  | openEv (c : Nat)
  | errorEv (c : Nat) (e : Nat)
  | closeEv (c : Nat)
  deriving DecidableEq, Repr

/-- One step of the system. -/
def stepOp (wps : World × PS) (op : Op) : World × PS :=
  match op with
  | .connectOp => ((Mongootils.connect wps.1).1, wps.2)
  | .disconnectOp => ((Mongootils.disconnect wps.1).1, wps.2)
  | .closeCb => (closeCallback wps.1 wps.2).getD wps
  | .openEv c => (driverOpen wps.1 wps.2 c).getD wps
  | .errorEv c e => (driverError wps.1 wps.2 c e).getD wps
  | .closeEv c => (driverClose wps.1 wps.2 c).getD wps

/-- Running a sequence of steps. -/
def runOps (wps : World × PS) (ops : List Op) : World × PS :=
  ops.foldl stepOp wps

/-- The frame preserved by event dispatch: handle, process-wide list,
close-request count, store size and every readyState. -/
def EvFrame (w w2 : World) : Prop :=
  w2.handle = w.handle ∧ w2.connections = w.connections ∧
  w2.closeRequests = w.closeRequests ∧ w2.store.length = w.store.length ∧
  ∀ i, (getConn w2 i).readyState = (getConn w i).readyState

/-- A handle before any connection: one default connection in the
process-wide list, readyState 0. -/
def winit0 : World :=
  { store := [{ readyState := 0 }], connections := [0]
    handle := { uri := "mongodb://h/db" } }

/-- A world whose single process-wide connection is uninitialized
(readyState 99). -/
def wUninit99 : World :=
  { store := [{ readyState := 99 }], connections := [0], handle := { uri := "u" } }

/-- A handle that holds no connection in an empty world. -/
def wNoConn : World := { handle := { uri := "u" } }

/-- A handle holding a connected connection. -/
def wConnected : World :=
  { store := [{ readyState := 1 }], connections := [0]
    handle := { uri := "mongodb://h/db", connection := some 0 } }

/-- A handle holding a connection with one externally attached open
listener (a one-parameter function that is not the handler passed to
removeListeners). -/
def wExtListener : World :=
  { store := [{ readyState := 1
                events := [("open", EventEntry.single (Entry.plain (Fn.raw (RawF.ext 7 1))))] }]
    connections := [0]
    handle := { uri := "u", connection := some 0 } }

/-- The entry a successful addConnectionListener stores: persistent for
the error event, a one-shot wrapper otherwise. -/
def listenerEntry (ev : String) (cb : RawF) : Entry :=
  if ev == "error" then .plain (.bound cb) else .wrapper (.bound cb)

/-- The structured uri object getConnectionURI builds for a connection:
credentials, database name, and the host list (a single host/port pair
when the connection exposes no multi-host topology, the hosts list
verbatim otherwise). -/
def uriObjectOf (cn : Conn) : UriObject :=
  { username := cn.user
    password := cn.pass
    database := cn.name
    hosts :=
      match cn.hosts with
      | none => [(cn.host, cn.port)]
      | some hs => hs }

/-! ### Helper lemmas -/

theorem getq_concat {α : Type} (l : List α) (x : α) : (l ++ [x]).get? l.length = some x := by
  induction l with
  | nil => rfl
  | cons a t ih => simp [ih]

theorem set_concat {α : Type} (l : List α) (x y : α) :
    (l ++ [x]).set l.length y = l ++ [y] := by
  induction l with
  | nil => rfl
  | cons a t ih => simp [List.set, ih]

theorem set_self_getq {α : Type} (l : List α) (i : Nat) (d : α) :
    l.set i ((l.get? i).getD d) = l := by
  induction l generalizing i with
  | nil => rfl
  | cons a t ih =>
    cases i with
    | zero => rfl
    | succ n => simpa [List.set] using ih n

theorem updStore_handle (w : World) (c : Nat) (f : Conn → Conn) :
    (updStore w c f).handle = w.handle := rfl

theorem updStore_connections (w : World) (c : Nat) (f : Conn → Conn) :
    (updStore w c f).connections = w.connections := rfl

theorem updStore_closeRequests (w : World) (c : Nat) (f : Conn → Conn) :
    (updStore w c f).closeRequests = w.closeRequests := rfl

theorem updStore_store_length (w : World) (c : Nat) (f : Conn → Conn) :
    (updStore w c f).store.length = w.store.length := by
  simp [updStore]

theorem updStore_eq_self (w : World) (c : Nat) (f : Conn → Conn)
    (h : f (getConn w c) = getConn w c) : updStore w c f = w := by
  have hs : w.store.set c (f (getConn w c)) = w.store := by
    rw [h]; exact set_self_getq w.store c { readyState := 0 }
  unfold updStore
  rw [hs]

theorem updStore_out (w : World) (c : Nat) (f : Conn → Conn)
    (h : w.store.length ≤ c) : updStore w c f = w := by
  unfold updStore
  rw [List.set_eq_of_length_le h]

theorem getConn_updStore_self (w : World) (c : Nat) (f : Conn → Conn)
    (h : c < w.store.length) : getConn (updStore w c f) c = f (getConn w c) := by
  have h2 : (w.store.set c (f (getConn w c))).get? c = some (f (getConn w c)) := by
    rw [List.get?_eq_getElem?, List.getElem?_set_self h]
  show ((w.store.set c (f (getConn w c))).get? c).getD _ = _
  rw [h2]
  rfl

theorem getConn_updStore_ne (w : World) (c i : Nat) (f : Conn → Conn)
    (h : i ≠ c) : getConn (updStore w c f) i = getConn w i := by
  have h2 : (w.store.set c (f (getConn w c))).get? i = w.store.get? i := by
    rw [List.get?_eq_getElem?, List.get?_eq_getElem?,
      List.getElem?_set_ne (fun hh => h hh.symm)]
  show ((w.store.set c (f (getConn w c))).get? i).getD _ = _
  rw [h2]
  rfl

theorem evFrame_refl (w : World) : EvFrame w w :=
  ⟨rfl, rfl, rfl, rfl, fun _ => rfl⟩

theorem evFrame_trans {w1 w2 w3 : World} (h1 : EvFrame w1 w2) (h2 : EvFrame w2 w3) :
    EvFrame w1 w3 := by
  obtain ⟨a1, b1, c1, d1, e1⟩ := h1
  obtain ⟨a2, b2, c2, d2, e2⟩ := h2
  exact ⟨a2.trans a1, b2.trans b1, c2.trans c1, d2.trans d1, fun i => (e2 i).trans (e1 i)⟩

theorem evFrame_updStore_events (w : World) (c : Nat) (f : Conn → Conn)
    (hf : ∀ cn, (f cn).readyState = cn.readyState) : EvFrame w (updStore w c f) := by
  refine ⟨rfl, rfl, rfl, updStore_store_length w c f, fun i => ?_⟩
  by_cases hic : i = c
  · subst hic
    by_cases hlt : i < w.store.length
    · rw [getConn_updStore_self w i f hlt, hf]
    · rw [updStore_out w i f (Nat.le_of_not_lt hlt)]
  · rw [getConn_updStore_ne w c i f hic]

theorem removeListeners_evFrame (w : World) (ev : String) (cb : Fn) (w2 : World)
    (h : Mongootils.removeListeners w ev cb = some w2) : EvFrame w w2 := by
  unfold Mongootils.removeListeners at h
  cases hconn : w.handle.connection with
  | none =>
    rw [hconn] at h
    cases h
    exact evFrame_refl w
  | some c =>
    rw [hconn] at h
    simp only at h
    cases hloc : lookupEv (getConn w c).events ev with
    | none =>
      rw [hloc] at h
      cases h
      exact evFrame_refl w
    | some e =>
      rw [hloc] at h
      cases e with
      | multi es =>
        by_cases hes : es.isEmpty
        · simp only [hes, if_true] at h
          cases h
          exact evFrame_refl w
        · simp only [hes, if_false] at h
          cases h
      | single e0 =>
        simp only at h
        cases h
        exact evFrame_updStore_events w c _ (fun _ => rfl)

theorem connectCleanupRun_evFrame (w w2 : World)
    (h : connectCleanupRun w = some w2) : EvFrame w w2 := by
  unfold connectCleanupRun at h
  cases h1 : Mongootils.removeListeners w "error" (.raw .connErr) with
  | none => rw [h1] at h; cases h
  | some wa =>
    rw [h1] at h
    simp only at h
    cases h2 : Mongootils.removeListeners wa "open" (.raw .connOpened) with
    | none => rw [h2] at h; cases h
    | some wb =>
      rw [h2] at h
      simp only at h
      exact evFrame_trans (removeListeners_evFrame _ _ _ _ h1)
        (evFrame_trans (removeListeners_evFrame _ _ _ _ h2)
          (removeListeners_evFrame _ _ _ _ h))

theorem disconnectCleanupRun_evFrame (w w2 : World)
    (h : disconnectCleanupRun w = some w2) : EvFrame w w2 := by
  unfold disconnectCleanupRun at h
  cases h1 : Mongootils.removeListeners w "error" (.raw .discErr) with
  | none => rw [h1] at h; cases h
  | some wa =>
    rw [h1] at h
    simp only at h
    cases h2 : Mongootils.removeListeners wa "disconnected" (.raw .discClosed) with
    | none => rw [h2] at h; cases h
    | some wb =>
      rw [h2] at h
      simp only at h
      exact evFrame_trans (removeListeners_evFrame _ _ _ _ h1)
        (evFrame_trans (removeListeners_evFrame _ _ _ _ h2)
          (removeListeners_evFrame _ _ _ _ h))

theorem runRaw_evFrame (w : World) (ps : PS) (g : RawF) (err : Nat)
    (w2 : World) (ps2 : PS) (h : runRaw w ps g err = some (w2, ps2)) : EvFrame w w2 := by
  cases g <;> simp only [runRaw] at h
  case connErr => cases h; exact evFrame_refl w
  case connOpened => cases h; exact evFrame_refl w
  case discErr => cases h; exact evFrame_refl w
  case discClosed => cases h; exact evFrame_refl w
  case ext id a => cases h; exact evFrame_refl w
  case connCleanup =>
    cases hc : connectCleanupRun w with
    | none => rw [hc] at h; cases h
    | some wa => rw [hc] at h; cases h; exact connectCleanupRun_evFrame _ _ hc
  case discCleanup =>
    cases hc : disconnectCleanupRun w with
    | none => rw [hc] at h; cases h
    | some wa => rw [hc] at h; cases h; exact disconnectCleanupRun_evFrame _ _ hc

theorem runFn_evFrame (w : World) (ps : PS) (f : Fn) (err : Nat)
    (w2 : World) (ps2 : PS) (h : runFn w ps f err = some (w2, ps2)) : EvFrame w w2 := by
  cases f with
  | raw g => exact runRaw_evFrame w ps g err w2 ps2 h
  | bound g => exact runRaw_evFrame w ps g err w2 ps2 h

theorem runEntries_evFrame (es : List Entry) (err : Nat) :
    ∀ (w : World) (ps : PS) (w2 : World) (ps2 : PS),
      runEntries w ps es err = some (w2, ps2) → EvFrame w w2 := by
  induction es with
  | nil =>
    intro w ps w2 ps2 h
    cases h
    exact evFrame_refl w
  | cons e rest ih =>
    intro w ps w2 ps2 h
    unfold runEntries at h
    cases hr : runFn w ps e.target err with
    | none => rw [hr] at h; cases h
    | some wpsa =>
      rw [hr] at h
      simp only at h
      exact evFrame_trans (runFn_evFrame w ps e.target err wpsa.1 wpsa.2
        (by rw [hr])) (ih wpsa.1 wpsa.2 w2 ps2 h)

theorem fireEvent_evFrame (w : World) (ps : PS) (c : Nat) (ev : String) (err : Nat)
    (w2 : World) (ps2 : PS) (h : fireEvent w ps c ev err = some (w2, ps2)) : EvFrame w w2 := by
  unfold fireEvent at h
  exact evFrame_trans (evFrame_updStore_events w c
      (fun cn => { cn with events := dropWrappers cn.events ev }) (fun _ => rfl))
    (runEntries_evFrame _ err _ ps w2 ps2 h)

theorem addConnectionListener_handle (w : World) (ev : String) (cb : RawF) :
    (Mongootils.addConnectionListener w ev cb).handle = w.handle := by
  unfold Mongootils.addConnectionListener
  cases hc : w.handle.connection with
  | none => rfl
  | some c =>
    dsimp only
    split
    · split <;> rfl
    · rfl

theorem addConnectionListener_connections (w : World) (ev : String) (cb : RawF) :
    (Mongootils.addConnectionListener w ev cb).connections = w.connections := by
  unfold Mongootils.addConnectionListener
  cases hc : w.handle.connection with
  | none => rfl
  | some c =>
    dsimp only
    split
    · split <;> rfl
    · rfl

theorem addConnectionListener_closeRequests (w : World) (ev : String) (cb : RawF) :
    (Mongootils.addConnectionListener w ev cb).closeRequests = w.closeRequests := by
  unfold Mongootils.addConnectionListener
  cases hc : w.handle.connection with
  | none => rfl
  | some c =>
    dsimp only
    split
    · split <;> rfl
    · rfl

theorem addConnectionListener_store_length (w : World) (ev : String) (cb : RawF) :
    (Mongootils.addConnectionListener w ev cb).store.length = w.store.length := by
  unfold Mongootils.addConnectionListener
  cases hc : w.handle.connection with
  | none => rfl
  | some c =>
    dsimp only
    split
    · split
      · exact updStore_store_length _ _ _
      · exact updStore_store_length _ _ _
    · rfl

theorem mongooseConnect_handle (w : World) : (mongooseConnect w).handle = w.handle := by
  unfold mongooseConnect
  cases w.connections <;> rfl

theorem mongooseConnect_connections (w : World) :
    (mongooseConnect w).connections = w.connections := by
  unfold mongooseConnect
  cases hc : w.connections <;> simp [hc, updStore]

theorem mongooseConnect_closeRequests (w : World) :
    (mongooseConnect w).closeRequests = w.closeRequests := by
  unfold mongooseConnect
  cases w.connections <;> rfl

theorem mongooseConnect_store_length (w : World) :
    (mongooseConnect w).store.length = w.store.length := by
  unfold mongooseConnect
  cases w.connections with
  | nil => rfl
  | cons c rest => exact updStore_store_length _ _ _

theorem addConnectionListener_concat (st : List Conn) (cs : List Nat) (hd : Handle) (k : Nat)
    (cn : Conn) (ev : String) (cb : RawF)
    (hhd : hd.connection = some st.length)
    (hatt : (lookupEv cn.events ev).all (fun e => e.jsLength == 0) = true) :
    Mongootils.addConnectionListener
        { store := st ++ [cn], connections := cs, handle := hd, closeRequests := k } ev cb =
      { store := st ++ [{ cn with events := addEntry cn.events ev (listenerEntry ev cb) }]
        connections := cs, handle := hd, closeRequests := k } := by
  unfold Mongootils.addConnectionListener
  dsimp only
  rw [hhd]
  dsimp only
  have hg : getConn { store := st ++ [cn], connections := cs, handle := hd, closeRequests := k }
      st.length = cn := by
    unfold getConn
    dsimp only
    rw [getq_concat]
    rfl
  rw [hg, hatt]
  simp only [if_true]
  by_cases hev : (ev == "error") = true
  · rw [hev]
    simp only [if_true]
    unfold updStore
    rw [hg, set_concat]
    simp [listenerEntry, hev]
  · rw [Bool.not_eq_true] at hev
    rw [hev]
    simp only [Bool.false_eq_true, if_false]
    unfold updStore
    rw [hg, set_concat]
    simp [listenerEntry, hev]

theorem connect_fresh_shape (w : World)
    (h1 : (Mongootils.is w "connected").truthy = false)
    (h2 : (Mongootils.is w "connecting").truthy = false)
    (h3 : (w.connections.length == 1 &&
            (getConn w (w.connections.headD 0)).readyState == 0) = false) :
    Mongootils.connect w = (wFresh w, CResult.pending) := by
  have e1 : Mongootils.addConnectionListener
      { store := w.store ++ [newConn w.handle.uri w.handle.options]
        connections := w.connections ++ [w.store.length]
        handle := { w.handle with connection := some w.store.length }
        closeRequests := w.closeRequests } "error" .connErr =
      { store := w.store ++ [{ newConn w.handle.uri w.handle.options with
            events := [("error", EventEntry.single (Entry.plain (Fn.bound RawF.connErr)))] }]
        connections := w.connections ++ [w.store.length]
        handle := { w.handle with connection := some w.store.length }
        closeRequests := w.closeRequests } :=
    addConnectionListener_concat _ _ _ _ _ _ _ rfl rfl
  have e2 : Mongootils.addConnectionListener
      { store := w.store ++ [{ newConn w.handle.uri w.handle.options with
            events := [("error", EventEntry.single (Entry.plain (Fn.bound RawF.connErr)))] }]
        connections := w.connections ++ [w.store.length]
        handle := { w.handle with connection := some w.store.length }
        closeRequests := w.closeRequests } "open" .connOpened =
      { store := w.store ++ [{ newConn w.handle.uri w.handle.options with
            events := [("error", EventEntry.single (Entry.plain (Fn.bound RawF.connErr))),
                       ("open", EventEntry.single (Entry.wrapper (Fn.bound RawF.connOpened)))] }]
        connections := w.connections ++ [w.store.length]
        handle := { w.handle with connection := some w.store.length }
        closeRequests := w.closeRequests } :=
    addConnectionListener_concat _ _ _ _ _ _ _ rfl rfl
  have e3 : Mongootils.addConnectionListener
      { store := w.store ++ [{ newConn w.handle.uri w.handle.options with
            events := [("error", EventEntry.single (Entry.plain (Fn.bound RawF.connErr))),
                       ("open", EventEntry.single (Entry.wrapper (Fn.bound RawF.connOpened)))] }]
        connections := w.connections ++ [w.store.length]
        handle := { w.handle with connection := some w.store.length }
        closeRequests := w.closeRequests } "close" .connCleanup =
      { store := w.store ++ [{ newConn w.handle.uri w.handle.options with
            events := connListeners }]
        connections := w.connections ++ [w.store.length]
        handle := { w.handle with connection := some w.store.length }
        closeRequests := w.closeRequests } :=
    addConnectionListener_concat _ _ _ _ _ _ _ rfl rfl
  unfold Mongootils.connect
  rw [h1, h2, h3]
  simp only [Bool.false_eq_true, if_false]
  unfold mongooseCreateConnection
  dsimp only
  rw [e1, e2, e3]
  rfl

/-! ### Claim theorems -/

/-- C1: for every handle whose held connection reports the connected
state, connect resolves immediately with the currently held connection
reference and performs no work (the state is unchanged); consequently a
second sequential connect yields the same connection reference. -/
theorem connect_already_connected_spec (w : World)
    (h : (Mongootils.is w "connected").truthy = true) :
    Mongootils.connect w = (w, CResult.resolved w.handle.connection) ∧
    (Mongootils.connect (Mongootils.connect w).1).2 = (Mongootils.connect w).2 := by
  have h1 : Mongootils.connect w = (w, CResult.resolved w.handle.connection) := by
    unfold Mongootils.connect
    rw [h]
    simp
  refine ⟨h1, ?_⟩
  rw [h1]
  dsimp only
  rw [h1]

/-- C1 witness: a concrete connected handle. -/
theorem connect_already_connected_spec_witness :
    Mongootils.connect wConnected =
      (wConnected, CResult.resolved wConnected.handle.connection) ∧
    (Mongootils.connect (Mongootils.connect wConnected).1).2 =
      (Mongootils.connect wConnected).2 :=
  connect_already_connected_spec wConnected (by decide)

/-- C6: disconnect on a handle in the disconnected or uninitialized state
clears the connection reference, resolves immediately with the stored
uri, and leaves everything else (in particular the close-request count)
unchanged. -/
theorem disconnect_noop_spec (w : World)
    (h : ((Mongootils.is w "disconnected").truthy ||
          (Mongootils.is w "uninitialized").truthy) = true) :
    Mongootils.disconnect w =
      ({ w with handle := { w.handle with connection := none } },
       DResult.resolved w.handle.uri) := by
  unfold Mongootils.disconnect
  rw [h]
  simp

/-- C6 witness: a handle that never held a connection. -/
theorem disconnect_noop_spec_witness :
    Mongootils.disconnect wNoConn =
      ({ wNoConn with handle := { wNoConn.handle with connection := none } },
       DResult.resolved wNoConn.handle.uri) :=
  disconnect_noop_spec wNoConn (by decide)

/-- C7 counterexample: a handle holding no connection queried for the
connected state does not receive a boolean at all; the source returns the
short-circuit value of this.connection, which is undefined. -/
theorem is_undef_cex :
    ¬ ∃ b : Bool, Mongootils.is wNoConn "connected" = JsVal.jb b := by
  decide

/-- C7 amended: is is a pure query; for disconnected / uninitialized it
returns a boolean that is true exactly when no connection is held or the
held connection reports that state; for any other state name it returns
undefined (falsy) when no connection is held and otherwise a boolean that
is true exactly when the held connection reports precisely that state. -/
theorem is_spec (w : World) (s : String) :
    ((s = "disconnected" ∨ s = "uninitialized") →
      ∃ b : Bool, Mongootils.is w s = JsVal.jb b ∧
        (b = true ↔ (w.handle.connection = none ∨
          ∃ c, w.handle.connection = some c ∧
            eqStates (getConn w c).readyState s = true))) ∧
    (s ≠ "disconnected" → s ≠ "uninitialized" →
      (w.handle.connection = none → Mongootils.is w s = JsVal.undef) ∧
      (∀ c, w.handle.connection = some c →
        Mongootils.is w s = JsVal.jb (eqStates (getConn w c).readyState s))) := by
  constructor
  · intro hs
    have hs2 : (s == "disconnected" || s == "uninitialized") = true := by
      cases hs with
      | inl h => subst h; rfl
      | inr h => subst h; simp
    unfold Mongootils.is
    rw [hs2]
    simp only [if_true]
    cases hc : w.handle.connection with
    | none => exact ⟨true, rfl, by simp⟩
    | some c =>
      refine ⟨eqStates (getConn w c).readyState s, rfl, ?_⟩
      constructor
      · intro hb
        exact Or.inr ⟨c, rfl, hb⟩
      · intro hor
        cases hor with
        | inl h => cases h
        | inr h =>
          obtain ⟨c2, hc2, hb⟩ := h
          cases hc2
          exact hb
  · intro hs1 hs2
    have hs3 : (s == "disconnected" || s == "uninitialized") = false := by
      simp [hs1, hs2]
    constructor
    · intro hc
      unfold Mongootils.is
      rw [hs3, hc]
      simp
    · intro c hc
      unfold Mongootils.is
      rw [hs3, hc]
      simp

/-- C7 witness: the second part applied to a connected handle and the
connected state name. -/
theorem is_spec_witness :
    Mongootils.is wConnected "connected" =
      JsVal.jb (eqStates (getConn wConnected 0).readyState "connected") :=
  ((is_spec wConnected "connected").2 (by decide) (by decide)).2 0 (by decide)

/-- C8: getConnectionURI returns absent when no connection is held;
otherwise it renders the structured uri object of the connection through
the URI Codec's format and then the driver-specific rendering pass, with
the host list a single host/port pair when the connection exposes no
multi-host topology and the connection's hosts list verbatim otherwise. -/
theorem getConnectionURI_spec (w : World) :
    (w.handle.connection = none → Mongootils.getConnectionURI w = none) ∧
    (∀ c, w.handle.connection = some c →
      Mongootils.getConnectionURI w =
        some (mongodburi.formatMongoose (mongodburi.format (uriObjectOf (getConn w c))))) ∧
    (∀ c, w.handle.connection = some c → (getConn w c).hosts = none →
      (uriObjectOf (getConn w c)).hosts = [((getConn w c).host, (getConn w c).port)]) ∧
    (∀ c hs, w.handle.connection = some c → (getConn w c).hosts = some hs →
      (uriObjectOf (getConn w c)).hosts = hs) := by
  refine ⟨?_, ?_, ?_, ?_⟩
  · intro h
    unfold Mongootils.getConnectionURI
    rw [h]
  · intro c h
    unfold Mongootils.getConnectionURI uriObjectOf
    rw [h]
  · intro c h hh
    unfold uriObjectOf
    rw [hh]
  · intro c hs h hh
    unfold uriObjectOf
    rw [hh]

/-- C8 witness: a concrete connected handle with no multi-host
topology. -/
theorem getConnectionURI_spec_witness :
    Mongootils.getConnectionURI wConnected =
      some (mongodburi.formatMongoose (mongodburi.format (uriObjectOf (getConn wConnected 0)))) :=
  (getConnectionURI_spec wConnected).2.1 0 (by decide)

/-- C4 counterexample: one externally attached open listener that is not
the handler passed to removeListeners; the call returns with the listener
still attached instead of removing all listeners for the event. -/
theorem removeListeners_cex :
    Mongootils.removeListeners wExtListener "open" (Fn.raw RawF.connOpened) =
      some wExtListener ∧
    countListeners wExtListener 0 "open" = 1 := by
  decide

theorem lookupEv_cons_pos (p : String × EventEntry) (rest : List (String × EventEntry))
    (ev : String) (h : (p.1 == ev) = true) : lookupEv (p :: rest) ev = some p.2 := by
  unfold lookupEv
  rw [@List.find?_cons_of_pos _ (fun q => q.1 == ev) p rest h]
  rfl

theorem lookupEv_cons_neg (p : String × EventEntry) (rest : List (String × EventEntry))
    (ev : String) (h : (p.1 == ev) = false) : lookupEv (p :: rest) ev = lookupEv rest ev := by
  unfold lookupEv
  rw [List.find?_cons_of_neg _ (by simp [h])]

theorem lookupEv_eq_none_of (evs : List (String × EventEntry)) (ev : String)
    (h : ∀ p ∈ evs, (p.1 == ev) = false) : lookupEv evs ev = none := by
  unfold lookupEv
  rw [List.find?_eq_none.mpr]
  · rfl
  · intro p hp
    simp [h p hp]

theorem lookupEv_delEv_nodup (evs : List (String × EventEntry)) (ev : String)
    (h : (evs.map Prod.fst).Nodup) : lookupEv (delEv evs ev) ev = none := by
  induction evs with
  | nil => rfl
  | cons p rest ih =>
    unfold delEv
    by_cases hp : (p.1 == ev) = true
    · rw [if_pos hp]
      have hpe : p.1 = ev := by simpa using hp
      apply lookupEv_eq_none_of
      intro q hq
      have hnm : p.1 ∉ rest.map Prod.fst := (List.nodup_cons.mp h).1
      have hqm : q.1 ∈ rest.map Prod.fst := List.mem_map_of_mem Prod.fst hq
      by_contra hqe
      rw [Bool.not_eq_false] at hqe
      have hqe2 : q.1 = ev := by simpa using hqe
      rw [hqe2, ← hpe] at hqm
      exact hnm hqm
    · rw [if_neg hp]
      rw [Bool.not_eq_true] at hp
      rw [lookupEv_cons_neg p _ ev hp]
      exact ih (List.nodup_cons.mp h).2

theorem lookupEv_setEv_self (evs : List (String × EventEntry)) (ev : String) (e : EventEntry) :
    lookupEv (setEv evs ev e) ev = some e := by
  induction evs with
  | nil => exact lookupEv_cons_pos (ev, e) [] ev (by simp)
  | cons p rest ih =>
    unfold setEv
    by_cases hp : (p.1 == ev) = true
    · rw [if_pos hp]
      exact lookupEv_cons_pos (ev, e) rest ev (by simp)
    · rw [if_neg hp]
      rw [Bool.not_eq_true] at hp
      rw [lookupEv_cons_neg p _ ev hp]
      exact ih

theorem count_addEntry (evs : List (String × EventEntry)) (ev : String) (en : Entry) :
    ((lookupEv (addEntry evs ev en) ev).elim [] EventEntry.toList).length =
    ((lookupEv evs ev).elim [] EventEntry.toList).length + 1 := by
  unfold addEntry
  cases h : lookupEv evs ev with
  | none =>
    rw [lookupEv_setEv_self]
    simp [EventEntry.toList]
  | some e =>
    cases e with
    | single e0 =>
      rw [lookupEv_setEv_self]
      simp [EventEntry.toList]
    | multi es =>
      rw [lookupEv_setEv_self]
      simp [EventEntry.toList]

/-- C4 amended: removeListeners(ev, cb) is a harmless no-op when no
connection is held or no listener slot exists for the event; with a
single registered listener it issues one targeted removeListener(ev, cb)
call, which removes the listener only when it is the very function passed
(never a bound copy of it); with a non-empty array of listeners the
iteration callback dereferences an undefined this under strict mode and
throws a TypeError. -/
theorem removeListeners_spec (w : World) (ev : String) (cb : Fn) :
    (w.handle.connection = none → Mongootils.removeListeners w ev cb = some w) ∧
    (∀ c, w.handle.connection = some c →
      (lookupEv (getConn w c).events ev = none →
        Mongootils.removeListeners w ev cb = some w) ∧
      (∀ e, lookupEv (getConn w c).events ev = some (.single e) → e.target ≠ cb →
        Mongootils.removeListeners w ev cb = some w) ∧
      (∀ e, lookupEv (getConn w c).events ev = some (.single e) → e.target = cb →
        ((getConn w c).events.map Prod.fst).Nodup →
        ∃ w2, Mongootils.removeListeners w ev cb = some w2 ∧
          w2.handle = w.handle ∧ lookupEv (getConn w2 c).events ev = none) ∧
      (∀ es, lookupEv (getConn w c).events ev = some (.multi es) → es ≠ [] →
        Mongootils.removeListeners w ev cb = none)) := by
  constructor
  · intro h
    unfold Mongootils.removeListeners
    rw [h]
  · intro c hc
    refine ⟨?_, ?_, ?_, ?_⟩
    · intro h
      unfold Mongootils.removeListeners
      rw [hc]
      dsimp only
      rw [h]
    · intro e h hne
      unfold Mongootils.removeListeners
      rw [hc]
      dsimp only
      rw [h]
      dsimp only
      have hrm : emitterRemove (getConn w c).events ev cb = (getConn w c).events := by
        unfold emitterRemove
        rw [h]
        dsimp only
        rw [if_neg (by simpa using hne)]
      rw [updStore_eq_self w c _ (by rw [hrm])]
    · intro e h he hnd
      unfold Mongootils.removeListeners
      rw [hc]
      dsimp only
      rw [h]
      dsimp only
      have hrm : emitterRemove (getConn w c).events ev cb = delEv (getConn w c).events ev := by
        unfold emitterRemove
        rw [h]
        dsimp only
        rw [if_pos (by simpa using he)]
      have hlt : c < w.store.length := by
        by_contra hge
        rw [Nat.not_lt] at hge
        have : w.store.get? c = none := List.get?_eq_none.mpr hge
        unfold getConn at h
        rw [this] at h
        cases h
      refine ⟨_, rfl, rfl, ?_⟩
      rw [getConn_updStore_self w c _ hlt]
      dsimp only
      rw [hrm]
      exact lookupEv_delEv_nodup _ ev hnd
    · intro es h hne
      unfold Mongootils.removeListeners
      rw [hc]
      dsimp only
      rw [h]
      dsimp only
      rw [if_neg (by simpa using hne)]

/-- C4 witness: the single-listener targeted-removal case at a concrete
input where the registered listener is the function passed. -/
theorem removeListeners_spec_witness :
    ∃ w2, Mongootils.removeListeners
        { store := [{ readyState := 1,
                      events := [("open", EventEntry.single (Entry.plain (Fn.raw (RawF.ext 3 0))))] }]
          connections := [0]
          handle := { uri := "u", connection := some 0 } } "open" (Fn.raw (RawF.ext 3 0)) = some w2 ∧
      w2.handle = ({ uri := "u", connection := some 0 } : Handle) ∧
      lookupEv (getConn w2 0).events "open" = none :=
  ((removeListeners_spec _ "open" (Fn.raw (RawF.ext 3 0))).2 0 (by decide)).2.2.1
    (Entry.plain (Fn.raw (RawF.ext 3 0))) (by decide) (by decide) (by decide)

/-- C5 counterexample: the process-wide list holds exactly one connection
and it is in the uninitialized state (readyState 99, the enum's
uninitialized code), yet connect does not reuse the default slot: it
appends a new, independent connection and points the handle at it. -/
theorem connect_default_slot_cex :
    (getConn wUninit99 0).readyState = 99 ∧
    STATES "uninitialized" = some 99 ∧
    wUninit99.connections = [0] ∧
    (Mongootils.connect wUninit99).1.handle.connection = some 1 ∧
    (Mongootils.connect wUninit99).1.store.length = 2 ∧
    (Mongootils.connect wUninit99).1.connections = [0, 1] := by
  decide

/-- C5 amended: a connect that initiates new work uses the shared default
slot exactly when the process-wide connection list has length one and
that single connection is in the disconnected state (readyState 0); in
every other case it creates a new, independent connection object and
appends it to the list. -/
theorem connect_default_slot_spec (w : World)
    (h1 : (Mongootils.is w "connected").truthy = false)
    (h2 : (Mongootils.is w "connecting").truthy = false) :
    ((w.connections.length == 1 &&
        (getConn w (w.connections.headD 0)).readyState == 0) = true →
      (Mongootils.connect w).1.handle.connection = some (w.connections.headD 0) ∧
      (Mongootils.connect w).1.store.length = w.store.length ∧
      (Mongootils.connect w).1.connections = w.connections) ∧
    ((w.connections.length == 1 &&
        (getConn w (w.connections.headD 0)).readyState == 0) = false →
      (Mongootils.connect w).1.handle.connection = some w.store.length ∧
      (Mongootils.connect w).1.store.length = w.store.length + 1 ∧
      (Mongootils.connect w).1.connections = w.connections ++ [w.store.length]) := by
  constructor
  · intro hg
    unfold Mongootils.connect
    rw [h1, h2, hg]
    simp only [Bool.false_eq_true, if_false, if_true]
    refine ⟨?_, ?_, ?_⟩
    · rw [addConnectionListener_handle, addConnectionListener_handle,
        addConnectionListener_handle]
    · rw [addConnectionListener_store_length, addConnectionListener_store_length,
        addConnectionListener_store_length]
      exact mongooseConnect_store_length w
    · rw [addConnectionListener_connections, addConnectionListener_connections,
        addConnectionListener_connections]
      exact mongooseConnect_connections w
  · intro hg
    rw [connect_fresh_shape w h1 h2 hg]
    refine ⟨rfl, ?_, rfl⟩
    unfold wFresh
    simp

/-- C5 witness: the default slot is reused when the single process-wide
connection has readyState 0, and a fresh independent connection is
created for the concrete uninitialized world. -/
theorem connect_default_slot_spec_witness :
    ((Mongootils.connect winit0).1.handle.connection = some (winit0.connections.headD 0) ∧
     (Mongootils.connect winit0).1.store.length = winit0.store.length ∧
     (Mongootils.connect winit0).1.connections = winit0.connections) ∧
    ((Mongootils.connect wUninit99).1.handle.connection = some wUninit99.store.length ∧
     (Mongootils.connect wUninit99).1.store.length = wUninit99.store.length + 1 ∧
     (Mongootils.connect wUninit99).1.connections =
       wUninit99.connections ++ [wUninit99.store.length]) :=
  ⟨(connect_default_slot_spec winit0 (by decide) (by decide)).1 (by decide),
   (connect_default_slot_spec wUninit99 (by decide) (by decide)).2 (by decide)⟩

/-- C3 counterexample: after connect registers its listeners on the
default connection (one listener on close), a disconnect issued while
that connect is still in flight attaches a second close listener: the
registry check reads the JS length of the stored once wrapper, which is
0, and therefore attaches again. -/
theorem addConnectionListener_dup_cex :
    countListeners (Mongootils.connect winit0).1 0 "close" = 1 ∧
    countListeners (Mongootils.disconnect (Mongootils.connect winit0).1).1 0 "close" = 2 := by
  decide

/-- C3 amended: addConnectionListener(event, handler) attaches the
handler exactly when the connection reports no listener slot for the
event or the slot's JS length is 0; when a single listener is stored the
slot's JS length is that function's arity, not the listener count, so a
stored zero-parameter listener (in particular every once wrapper) lets a
duplicate through.  When a listener with non-zero JS length is present
nothing is attached. -/
theorem addConnectionListener_attach_spec (w : World) (ev : String) (cb : RawF) (c : Nat)
    (hc : w.handle.connection = some c) (hlen : c < w.store.length) :
    (∀ e, lookupEv (getConn w c).events ev = some e → e.jsLength ≠ 0 →
      Mongootils.addConnectionListener w ev cb = w) ∧
    ((lookupEv (getConn w c).events ev).all (fun e => e.jsLength == 0) = true →
      countListeners (Mongootils.addConnectionListener w ev cb) c ev =
        countListeners w c ev + 1) := by
  constructor
  · intro e he hne
    unfold Mongootils.addConnectionListener
    rw [hc]
    dsimp only
    rw [he]
    have : (Option.all (fun e => e.jsLength == 0) (some e)) = false := by
      simp [hne]
    rw [this]
    simp
  · intro hatt
    unfold Mongootils.addConnectionListener
    rw [hc]
    dsimp only
    rw [hatt]
    simp only [if_true]
    by_cases hev : (ev == "error") = true
    · rw [hev]
      simp only [if_true]
      unfold countListeners
      rw [getConn_updStore_self w c _ hlen]
      exact count_addEntry _ ev _
    · rw [Bool.not_eq_true] at hev
      rw [hev]
      simp only [Bool.false_eq_true, if_false]
      unfold countListeners
      rw [getConn_updStore_self w c _ hlen]
      exact count_addEntry _ ev _

/-- C3 witness: attaching to a connected connection with an empty
registry adds exactly one listener. -/
theorem addConnectionListener_attach_spec_witness :
    countListeners (Mongootils.addConnectionListener wConnected "open" RawF.connOpened)
      0 "open" = countListeners wConnected 0 "open" + 1 :=
  (addConnectionListener_attach_spec wConnected "open" RawF.connOpened 0
    (by decide) (by decide)).2 (by decide)

theorem getConn_concatW (st : List Conn) (cs : List Nat) (hd : Handle) (k : Nat) (cn : Conn) :
    getConn { store := st ++ [cn], connections := cs, handle := hd, closeRequests := k }
      st.length = cn := by
  unfold getConn
  dsimp only
  rw [getq_concat]
  rfl

theorem updStore_concatW (st : List Conn) (cs : List Nat) (hd : Handle) (k : Nat)
    (cn : Conn) (f : Conn → Conn) :
    updStore { store := st ++ [cn], connections := cs, handle := hd, closeRequests := k }
      st.length f =
    { store := st ++ [f cn], connections := cs, handle := hd, closeRequests := k } := by
  unfold updStore
  rw [getConn_concatW]
  dsimp only
  rw [set_concat]

theorem driverOpen_wFresh (w : World) (ps : PS) :
    driverOpen (wFresh w) ps w.store.length =
      some ({ store := w.store ++ [{ newConn w.handle.uri w.handle.options with
                  readyState := 1
                  events := [("error", EventEntry.single (Entry.plain (Fn.bound RawF.connErr))),
                             ("close", EventEntry.single (Entry.wrapper (Fn.bound RawF.connCleanup)))] }]
              connections := w.connections ++ [w.store.length]
              handle := { w.handle with connection := some w.store.length }
              closeRequests := w.closeRequests },
            { ps with c := ps.c.resolveOnce (some w.store.length) }) := by
  unfold driverOpen fireEvent wFresh
  simp only [updStore_concatW, getConn_concatW]
  simp [dropWrappers, lookupEv, delEv, setEv, connListeners, runEntries, runFn, runRaw,
    Entry.target, EventEntry.toList, newConn]

theorem driverError_wFresh (w : World) (ps : PS) (e : Nat) :
    driverError (wFresh w) ps w.store.length e =
      some (wFresh w, { ps with c := ps.c.rejectOnce e }) := by
  unfold driverError fireEvent wFresh
  simp only [updStore_concatW, getConn_concatW]
  simp [dropWrappers, lookupEv, delEv, setEv, connListeners, runEntries, runFn, runRaw,
    Entry.target, EventEntry.toList, newConn]

/-- C2 corrected lifecycle: a connect attempt that creates a fresh
connection registers exactly one error, one open and one close listener
and stays pending.  When the open event fires the attempt resolves with
the connection; the one-shot open listener removes itself but the error
and close listeners remain attached.  When the error event fires the
attempt rejects with the original error object unmodified and all three
listeners remain attached (error is persistent, and the teardown passes
unbound handler references that never match the attached bound copies). -/
theorem connect_attempt_listener_lifecycle (w : World) (e : Nat)
    (h1 : (Mongootils.is w "connected").truthy = false)
    (h2 : (Mongootils.is w "connecting").truthy = false)
    (h3 : (w.connections.length == 1 &&
            (getConn w (w.connections.headD 0)).readyState == 0) = false) :
    (Mongootils.connect w).2 = CResult.pending ∧
    (Mongootils.connect w).1.handle.connection = some w.store.length ∧
    countListeners (Mongootils.connect w).1 w.store.length "error" = 1 ∧
    countListeners (Mongootils.connect w).1 w.store.length "open" = 1 ∧
    countListeners (Mongootils.connect w).1 w.store.length "close" = 1 ∧
    (driverOpen (Mongootils.connect w).1 ps0 w.store.length).map
        (fun wps => (wps.2.c, countListeners wps.1 w.store.length "error",
                     countListeners wps.1 w.store.length "open",
                     countListeners wps.1 w.store.length "close"))
      = some (CResult.resolved (some w.store.length), 1, 0, 1) ∧
    (driverError (Mongootils.connect w).1 ps0 w.store.length e).map
        (fun wps => (wps.2.c, countListeners wps.1 w.store.length "error",
                     countListeners wps.1 w.store.length "open",
                     countListeners wps.1 w.store.length "close"))
      = some (CResult.rejected e, 1, 1, 1) := by
  rw [connect_fresh_shape w h1 h2 h3]
  dsimp only
  refine ⟨rfl, rfl, ?_, ?_, ?_, ?_, ?_⟩
  · unfold countListeners wFresh
    rw [getConn_concatW]
    rfl
  · unfold countListeners wFresh
    rw [getConn_concatW]
    rfl
  · unfold countListeners wFresh
    rw [getConn_concatW]
    rfl
  · rw [driverOpen_wFresh w ps0]
    simp only [Option.map_some']
    unfold countListeners
    simp only [getConn_concatW]
    rfl
  · rw [driverError_wFresh w ps0 e]
    unfold wFresh
    simp only [Option.map_some']
    unfold countListeners
    simp only [getConn_concatW]
    rfl

/-- C2 witness: the concrete fresh-connect world built from a single
uninitialized default connection. -/
theorem connect_attempt_listener_lifecycle_witness :
    (Mongootils.connect wUninit99).2 = CResult.pending ∧
    (Mongootils.connect wUninit99).1.handle.connection = some wUninit99.store.length ∧
    countListeners (Mongootils.connect wUninit99).1 wUninit99.store.length "error" = 1 ∧
    countListeners (Mongootils.connect wUninit99).1 wUninit99.store.length "open" = 1 ∧
    countListeners (Mongootils.connect wUninit99).1 wUninit99.store.length "close" = 1 ∧
    (driverOpen (Mongootils.connect wUninit99).1 ps0 wUninit99.store.length).map
        (fun wps => (wps.2.c, countListeners wps.1 wUninit99.store.length "error",
                     countListeners wps.1 wUninit99.store.length "open",
                     countListeners wps.1 wUninit99.store.length "close"))
      = some (CResult.resolved (some wUninit99.store.length), 1, 0, 1) ∧
    (driverError (Mongootils.connect wUninit99).1 ps0 wUninit99.store.length 42).map
        (fun wps => (wps.2.c, countListeners wps.1 wUninit99.store.length "error",
                     countListeners wps.1 wUninit99.store.length "open",
                     countListeners wps.1 wUninit99.store.length "close"))
      = some (CResult.rejected 42, 1, 1, 1) :=
  connect_attempt_listener_lifecycle wUninit99 42 (by decide) (by decide) (by decide)

/-- C2 counterexample: after the open event fires and the connect promise
resolves, the error and close listeners registered by that attempt are
still attached (1 each), contradicting that none remain. -/
theorem connect_teardown_cex :
    (driverOpen (Mongootils.connect winit0).1 ps0 0).map
        (fun wps => (wps.2.c, countListeners wps.1 0 "error",
                     countListeners wps.1 0 "open", countListeners wps.1 0 "close"))
      = some (CResult.resolved (some 0), 1, 0, 1) := by
  decide

theorem is_truthy_some (w : World) (s : String) (c : Nat)
    (hc : w.handle.connection = some c) :
    (Mongootils.is w s).truthy = eqStates (getConn w c).readyState s := by
  unfold Mongootils.is
  by_cases hs : (s == "disconnected" || s == "uninitialized") = true
  · rw [hs]
    simp only [if_true]
    rw [hc]
    rfl
  · rw [Bool.not_eq_true] at hs
    rw [hs]
    simp only [Bool.false_eq_true, if_false]
    rw [hc]
    rfl

theorem is_truthy_none (w : World) (s : String) (hc : w.handle.connection = none) :
    (Mongootils.is w s).truthy = (s == "disconnected" || s == "uninitialized") := by
  unfold Mongootils.is
  by_cases hs : (s == "disconnected" || s == "uninitialized") = true
  · rw [hs]
    simp only [if_true]
    rw [hc]
    rfl
  · rw [Bool.not_eq_true] at hs
    rw [hs]
    simp only [Bool.false_eq_true, if_false]
    rw [hc]
    rfl

/-- C9: after disconnect resolves through the no-op path the handle is
disconnected and holds no connection; after the close completion callback
runs, the handle is disconnected, holds no connection, and the promise is
resolved with the stored uri; after connect resolves through the
already-connected path, or after the open event marks the connection
connected, the handle is connected and not disconnected. -/
theorem state_round_trip_spec (w : World) (ps : PS) (c : Nat) :
    (((Mongootils.is w "disconnected").truthy ||
        (Mongootils.is w "uninitialized").truthy) = true →
      (Mongootils.is (Mongootils.disconnect w).1 "disconnected").truthy = true ∧
      (Mongootils.disconnect w).1.handle.connection = none) ∧
    (∀ w2 ps2, closeCallback w ps = some (w2, ps2) →
      (Mongootils.is w2 "disconnected").truthy = true ∧
      w2.handle.connection = none ∧
      ps2.d = ps.d.resolveOnce w.handle.uri) ∧
    ((Mongootils.is w "connected").truthy = true →
      (Mongootils.is (Mongootils.connect w).1 "connected").truthy = true ∧
      (Mongootils.is (Mongootils.connect w).1 "disconnected").truthy = false) ∧
    (w.handle.connection = some c → c < w.store.length →
      ∀ w2 ps2, driverOpen w ps c = some (w2, ps2) →
        w2.handle.connection = some c ∧
        (Mongootils.is w2 "connected").truthy = true ∧
        (Mongootils.is w2 "disconnected").truthy = false) := by
  refine ⟨?_, ?_, ?_, ?_⟩
  · intro hg
    have hd : Mongootils.disconnect w =
        ({ w with handle := { w.handle with connection := none } },
         DResult.resolved w.handle.uri) := by
      unfold Mongootils.disconnect
      rw [hg]
      simp
    rw [hd]
    exact ⟨rfl, rfl⟩
  · intro w2 ps2 h
    unfold closeCallback at h
    cases hc2 : disconnectCleanupRun w with
    | none => rw [hc2] at h; cases h
    | some wa =>
      rw [hc2] at h
      simp only [Option.map_some'] at h
      cases h
      have hf := disconnectCleanupRun_evFrame w wa hc2
      refine ⟨rfl, rfl, ?_⟩
      have hu : wa.handle.uri = w.handle.uri := congrArg Handle.uri hf.1
      dsimp only
      rw [hu]
  · intro hg
    have h1 : Mongootils.connect w = (w, CResult.resolved w.handle.connection) := by
      unfold Mongootils.connect
      rw [hg]
      simp
    rw [h1]
    dsimp only
    cases hcw : w.handle.connection with
    | none =>
      rw [is_truthy_none w "connected" hcw] at hg
      exact absurd hg (by decide)
    | some c2 =>
      have hrs : eqStates (getConn w c2).readyState "connected" = true := by
        rw [← is_truthy_some w "connected" c2 hcw]
        exact hg
      have hrs1 : (getConn w c2).readyState = 1 := by
        have he : eqStates (getConn w c2).readyState "connected" =
            ((getConn w c2).readyState == 1) := rfl
        rw [he] at hrs
        simpa using hrs
      refine ⟨hg, ?_⟩
      rw [is_truthy_some w "disconnected" c2 hcw]
      have he : eqStates (getConn w c2).readyState "disconnected" =
          ((getConn w c2).readyState == 0) := rfl
      rw [he, hrs1]
      rfl
  · intro hcw hlt w2 ps2 h
    unfold driverOpen at h
    have hf := fireEvent_evFrame _ ps c "open" 0 w2 ps2 h
    obtain ⟨hh, _, _, _, hrs⟩ := hf
    have hh2 : w2.handle = w.handle := by rw [hh]; rfl
    have hconn2 : w2.handle.connection = some c := by rw [hh2, hcw]
    have hrsc : (getConn w2 c).readyState = 1 := by
      rw [hrs c, getConn_updStore_self w c _ hlt]
    refine ⟨hconn2, ?_, ?_⟩
    · rw [is_truthy_some w2 "connected" c hconn2]
      have he : eqStates (getConn w2 c).readyState "connected" =
          ((getConn w2 c).readyState == 1) := rfl
      rw [he, hrsc]
      rfl
    · rw [is_truthy_some w2 "disconnected" c hconn2]
      have he : eqStates (getConn w2 c).readyState "disconnected" =
          ((getConn w2 c).readyState == 0) := rfl
      rw [he, hrsc]
      rfl

/-- C9 witness: all four resolution paths exercised at concrete
worlds. -/
theorem state_round_trip_spec_witness :
    ((Mongootils.is (Mongootils.disconnect wNoConn).1 "disconnected").truthy = true ∧
     (Mongootils.disconnect wNoConn).1.handle.connection = none) ∧
    ((Mongootils.is { wConnected with
        handle := { wConnected.handle with connection := none } } "disconnected").truthy = true) ∧
    ((Mongootils.is (Mongootils.connect wConnected).1 "connected").truthy = true ∧
     (Mongootils.is (Mongootils.connect wConnected).1 "disconnected").truthy = false) ∧
    ((Mongootils.is wConnected "connected").truthy = true) :=
  ⟨(state_round_trip_spec wNoConn ps0 0).1 (by decide),
   ((state_round_trip_spec wConnected ps0 0).2.1
     { wConnected with handle := { wConnected.handle with connection := none } }
     { c := CResult.pending, d := DResult.resolved "mongodb://h/db" } (by decide)).1,
   (state_round_trip_spec wConnected ps0 0).2.2.1 (by decide),
   ((state_round_trip_spec wConnected ps0 0).2.2.2 (by decide) (by decide)
     wConnected ps0 (by decide)).2.1⟩

theorem connect_uri_options (w : World) :
    (Mongootils.connect w).1.handle.uri = w.handle.uri ∧
    (Mongootils.connect w).1.handle.options = w.handle.options := by
  by_cases h1 : (Mongootils.is w "connected").truthy = true
  · unfold Mongootils.connect
    rw [h1]
    simp
  · rw [Bool.not_eq_true] at h1
    by_cases h2 : (Mongootils.is w "connecting").truthy = true
    · unfold Mongootils.connect
      rw [h1, h2]
      simp
    · rw [Bool.not_eq_true] at h2
      by_cases hg : (w.connections.length == 1 &&
          (getConn w (w.connections.headD 0)).readyState == 0) = true
      · unfold Mongootils.connect
        rw [h1, h2, hg]
        simp [addConnectionListener_handle, mongooseConnect_handle]
      · rw [Bool.not_eq_true] at hg
        rw [connect_fresh_shape w h1 h2 hg]
        exact ⟨rfl, rfl⟩

theorem disconnect_uri_options (w : World) :
    (Mongootils.disconnect w).1.handle.uri = w.handle.uri ∧
    (Mongootils.disconnect w).1.handle.options = w.handle.options := by
  by_cases h1 : ((Mongootils.is w "disconnected").truthy ||
      (Mongootils.is w "uninitialized").truthy) = true
  · unfold Mongootils.disconnect
    rw [h1]
    simp
  · rw [Bool.not_eq_true] at h1
    by_cases h2 : (Mongootils.is w "disconnecting").truthy = true
    · unfold Mongootils.disconnect
      rw [h1, h2]
      simp
    · rw [Bool.not_eq_true] at h2
      unfold Mongootils.disconnect
      rw [h1, h2]
      simp [addConnectionListener_handle]

theorem closeCallback_uri_options (w : World) (ps : PS) (w2 : World) (ps2 : PS)
    (h : closeCallback w ps = some (w2, ps2)) :
    w2.handle.uri = w.handle.uri ∧ w2.handle.options = w.handle.options ∧
    ps2.d = ps.d.resolveOnce w.handle.uri := by
  unfold closeCallback at h
  cases hc : disconnectCleanupRun w with
  | none => rw [hc] at h; cases h
  | some wa =>
    rw [hc] at h
    simp only [Option.map_some'] at h
    cases h
    have hf := disconnectCleanupRun_evFrame w wa hc
    have hu : wa.handle.uri = w.handle.uri := congrArg Handle.uri hf.1
    have ho : wa.handle.options = w.handle.options := congrArg Handle.options hf.1
    refine ⟨hu, ho, ?_⟩
    dsimp only
    rw [hu]

theorem stepOp_uri_options (wps : World × PS) (op : Op) :
    (stepOp wps op).1.handle.uri = wps.1.handle.uri ∧
    (stepOp wps op).1.handle.options = wps.1.handle.options := by
  cases op with
  | connectOp => exact connect_uri_options wps.1
  | disconnectOp => exact disconnect_uri_options wps.1
  | closeCb =>
    dsimp only [stepOp]
    cases hc : closeCallback wps.1 wps.2 with
    | none => exact ⟨rfl, rfl⟩
    | some wps2 =>
      have h3 := closeCallback_uri_options wps.1 wps.2 wps2.1 wps2.2 hc
      exact ⟨h3.1, h3.2.1⟩
  | openEv c =>
    dsimp only [stepOp]
    cases hc : driverOpen wps.1 wps.2 c with
    | none => exact ⟨rfl, rfl⟩
    | some wps2 =>
      unfold driverOpen at hc
      have hf := fireEvent_evFrame _ wps.2 c "open" 0 wps2.1 wps2.2 hc
      have hh : wps2.1.handle = wps.1.handle := by
        rw [hf.1, updStore_handle]
      exact ⟨congrArg Handle.uri hh, congrArg Handle.options hh⟩
  | errorEv c e =>
    dsimp only [stepOp]
    cases hc : driverError wps.1 wps.2 c e with
    | none => exact ⟨rfl, rfl⟩
    | some wps2 =>
      unfold driverError at hc
      have hf := fireEvent_evFrame _ wps.2 c "error" e wps2.1 wps2.2 hc
      have hh : wps2.1.handle = wps.1.handle := hf.1
      exact ⟨congrArg Handle.uri hh, congrArg Handle.options hh⟩
  | closeEv c =>
    dsimp only [stepOp]
    cases hc : driverClose wps.1 wps.2 c with
    | none => exact ⟨rfl, rfl⟩
    | some wps2 =>
      unfold driverClose at hc
      have hf := fireEvent_evFrame _ wps.2 c "close" 0 wps2.1 wps2.2 hc
      have hh : wps2.1.handle = wps.1.handle := by
        rw [hf.1, updStore_handle]
      exact ⟨congrArg Handle.uri hh, congrArg Handle.options hh⟩

theorem runOps_uri_options (ops : List Op) :
    ∀ wps : World × PS, (runOps wps ops).1.handle.uri = wps.1.handle.uri ∧
      (runOps wps ops).1.handle.options = wps.1.handle.options := by
  induction ops with
  | nil => intro wps; exact ⟨rfl, rfl⟩
  | cons op rest ih =>
    intro wps
    unfold runOps
    simp only [List.foldl_cons]
    obtain ⟨h1, h2⟩ := ih (stepOp wps op)
    obtain ⟨h3, h4⟩ := stepOp_uri_options wps op
    unfold runOps at h1 h2
    exact ⟨h1.trans h3, h2.trans h4⟩

/-- C10: the uri and options fields are written only during construction:
every sequence of operations (connect, disconnect, close completion,
driver events; the pure queries are state-free functions) preserves them,
and every resolution of disconnect — the no-op path or the close
completion callback — carries exactly the handle's stored uri. -/
theorem uri_options_frame_spec (uri : String) (opts : Nat) (st : List Conn)
    (cs : List Nat) (k : Nat) (ps : PS) (ops : List Op) :
    ((runOps ({ store := st, connections := cs, handle := Mongootils.new uri opts,
                closeRequests := k }, ps) ops).1.handle.uri = uri ∧
     (runOps ({ store := st, connections := cs, handle := Mongootils.new uri opts,
                closeRequests := k }, ps) ops).1.handle.options = opts) ∧
    (∀ w u, (Mongootils.disconnect w).2 = DResult.resolved u → u = w.handle.uri) ∧
    (∀ w ps1 w2 ps2, closeCallback w ps1 = some (w2, ps2) →
      ps2.d = ps1.d.resolveOnce w.handle.uri) := by
  refine ⟨runOps_uri_options ops _, ?_, ?_⟩
  · intro w u h
    unfold Mongootils.disconnect at h
    split at h
    · dsimp only at h
      cases h
      rfl
    · split at h
      · cases h
      · cases h
  · intro w ps1 w2 ps2 h
    exact (closeCallback_uri_options w ps1 w2 ps2 h).2.2

/-- C10 witness: a constructed handle keeps its uri through a
connect-open-disconnect run, and a concrete disconnect resolution carries
the stored uri. -/
theorem uri_options_frame_spec_witness :
    ((runOps ({ store := [{ readyState := 0 }], connections := [0],
                handle := Mongootils.new "mongodb://h/db" 7, closeRequests := 0 }, ps0)
        [Op.connectOp, Op.openEv 0, Op.disconnectOp]).1.handle.uri = "mongodb://h/db" ∧
     (runOps ({ store := [{ readyState := 0 }], connections := [0],
                handle := Mongootils.new "mongodb://h/db" 7, closeRequests := 0 }, ps0)
        [Op.connectOp, Op.openEv 0, Op.disconnectOp]).1.handle.options = 7) ∧
    "u" = wNoConn.handle.uri :=
  ⟨(uri_options_frame_spec "mongodb://h/db" 7 [{ readyState := 0 }] [0] 0 ps0
      [Op.connectOp, Op.openEv 0, Op.disconnectOp]).1,
   (uri_options_frame_spec "x" 0 [] [] 0 ps0 []).2.1 wNoConn "u" (by decide)⟩
